import Mathlib

/-!
Shallow embedding of the file text-extraction pipeline of the repository
(src/chrome-extension/utils/textExtractor.ts and
src/chrome-extension/utils/fileHandler.ts).

Modelling choices:
- A JavaScript computation that may throw is embedded as `Except JsThrown α`.
  A thrown value is either an `Error` carrying a message string, or some
  non-`Error` value (JS lets any value be thrown); the ubiquitous
  `error instanceof Error ? error.message : <fallback>` idiom is
  `JsThrown.messageOr`.
- `try { body } catch (e) { handler }` where the handler returns normally is
  the combinator `jsTry`.
- A `File` is its declared media-type string, its display name, and the two
  content reads the pipeline performs: `file.text()` (`textContent`) and
  `file.arrayBuffer()` followed by `Buffer.from` (`bytes`), each of which may
  reject / throw.
- The external capabilities — `JSON.parse`, `JSON.stringify(·, null, 2)` and
  the office-text-extractor library — are a parameter `JsEnv J`, with `J` the
  type of parsed JSON values.  `JSON.parse` may throw; `JSON.stringify` is
  total here because in the source it is only ever applied to a value freshly
  produced by `JSON.parse` (no circular references, no `toJSON`, no `BigInt`),
  on which the real `JSON.stringify` cannot throw.
- `Promise.all(files.map(processFile))` is modelled as the deterministic
  in-order join: it resolves to the list of results in input order, and
  rejects with the failure of the first (in input order) failing file.
-/

/-- JsThrown is a value thrown by JavaScript code: either an `Error` object
carrying a message, or any non-`Error` value. -/
inductive JsThrown where
  | error (message : String)
  | nonError
deriving DecidableEq, Repr

/-- The `error instanceof Error ? error.message : fallback` idiom. -/
def JsThrown.messageOr (e : JsThrown) (fallback : String) : String :=
  match e with
  | .error m => m
  | .nonError => fallback

/-- The `TextExtractionResult` interface of textExtractor.ts:
`{ text: string; error?: string }`. -/
structure TextExtractionResult where
  text : String
  error : Option String := none
deriving DecidableEq, Repr

/-- A `File` as the pipeline observes it: declared media type, display name,
and the outcomes of its two content reads (each may throw). -/
structure File where
  type : String
  name : String
  textContent : Except JsThrown String
  bytes : Except JsThrown (List Nat)

/-- The external JavaScript capabilities the pipeline calls into, over a type
`J` of parsed JSON values: `JSON.parse` (may throw a `SyntaxError`),
`JSON.stringify(·, null, 2)`, and the wrapped office-text-extractor
(`extractText({input: buffer, type: 'buffer'})`, may fail). -/
structure JsEnv (J : Type) where
  jsonParse : String → Except JsThrown J
  jsonStringify2 : J → String
  officeExtract : List Nat → Except JsThrown String

/-- The `try/catch` statement: run `x`; on a thrown value, run the handler. -/
def jsTry {α : Type} (x : Except JsThrown α) (handler : JsThrown → Except JsThrown α) :
    Except JsThrown α :=
  match x with
  | .ok a => .ok a
  | .error e => handler e

namespace TextExtractor

/-- TextExtractor.isOfficeDocument: exact membership in the fixed allow-list of
office media types (DOCX, PPTX, XLSX, PDF). -/
def supportedTypes : List String :=
  [ "application/vnd.openxmlformats-officedocument.wordprocessingml.document"
  , "application/vnd.openxmlformats-officedocument.presentationml.presentation"
  , "application/vnd.openxmlformats-officedocument.spreadsheetml.sheet"
  , "application/pdf" ]

/-- TextExtractor.isOfficeDocument(mimeType). -/
def isOfficeDocument (mimeType : String) : Bool :=
  supportedTypes.contains mimeType

/-- TextExtractor.extractPlainText: read the file as text; for
`application/json` try to pretty-print it (2-space indentation), falling back
to the raw text when parsing fails; any read failure is caught and reported in
the result's `error` field. -/
def extractPlainText {J : Type} (env : JsEnv J) (file : File) :
    Except JsThrown TextExtractionResult :=
  jsTry
    (match file.textContent with
     | .error e => .error e
     | .ok text =>
       if file.type = "application/json" then
         match env.jsonParse text with
         | .ok jsonObj => .ok { text := env.jsonStringify2 jsonObj }
         | .error _ => .ok { text := text }
       else
         .ok { text := text })
    (fun e => .ok { text := "", error := some (e.messageOr "Failed to read text file") })

/-- TextExtractor.extractOfficeDocument: read the file's bytes and delegate to
the office-text-extractor capability; any failure is caught and reported in the
result's `error` field. -/
def extractOfficeDocument {J : Type} (env : JsEnv J) (file : File) :
    Except JsThrown TextExtractionResult :=
  jsTry
    (match file.bytes with
     | .error e => .error e
     | .ok buffer =>
       match env.officeExtract buffer with
       | .error e => .error e
       | .ok text => .ok { text := text })
    (fun e => .ok { text := "", error := some (e.messageOr "Failed to extract text from office document") })

/-- TextExtractor.extractText: dispatch on the declared media type — plain
text / JSON, office document, or unsupported — with an outer catch converting
any stray thrown value into `{text: "", error: message or "Unknown error
occurred"}`. -/
def extractText {J : Type} (env : JsEnv J) (file : File) :
    Except JsThrown TextExtractionResult :=
  jsTry
    (if file.type = "text/plain" ∨ file.type = "application/json" then
       extractPlainText env file
     else if isOfficeDocument file.type then
       extractOfficeDocument env file
     else
       .ok { text := "", error := some ("Unsupported file type: " ++ file.type) })
    (fun e => .ok { text := "", error := some (e.messageOr "Unknown error occurred") })

end TextExtractor

/-- Truthiness of the optional `error` field, as tested by
`if (result.error)`: absent or the empty string is falsy. -/
def errTruthy : Option String → Bool
  | none => false
  | some s => !s.isEmpty

namespace FileHandler

/-- FileHandler.processFile: run the extractor; a result with a truthy `error`
field becomes a thrown `Error` carrying that message, otherwise the extracted
text is returned. -/
def processFile {J : Type} (env : JsEnv J) (file : File) : Except JsThrown String :=
  match TextExtractor.extractText env file with
  | .error e => .error e
  | .ok result =>
    if errTruthy result.error then
      .error (.error (result.error.getD ""))
    else
      .ok result.text

/-- FileHandler.processFiles: `Promise.all(files.map(file =>
this.processFile(file)))`, modelled as the in-order join — the list of all
results in input order, or the failure of the first failing file. -/
def processFiles {J : Type} (env : JsEnv J) : List File → Except JsThrown (List String)
  | [] => .ok []
  | file :: rest =>
    match processFile env file with
    | .error e => .error e
    | .ok text =>
      match processFiles env rest with
      | .error e => .error e
      | .ok texts => .ok (text :: texts)

end FileHandler

/-! Concrete inputs used by the witness theorems. -/

/-- A toy JSON universe with a single value, enough to instantiate `JsEnv`
with a round-tripping parse/stringify pair. -/
def unitEnv : JsEnv Unit where
  jsonParse s := if s = "null" then .ok () else .error (.error "Unexpected token")
  jsonStringify2 _ := "null"
  officeExtract _ := .ok "office text"

/-- A plain text file. -/
def fileA : File :=
  { type := "text/plain", name := "a.txt", textContent := .ok "hello", bytes := .ok [] }

/-- A second plain text file. -/
def fileB : File :=
  { type := "text/plain", name := "b.txt", textContent := .ok "world", bytes := .ok [] }

/-- A file of an unsupported declared type. -/
def filePng : File :=
  { type := "image/png", name := "p.png", textContent := .ok "x", bytes := .ok [0] }

/-- A JSON file whose content parses in `unitEnv`. -/
def fileJsonOk : File :=
  { type := "application/json", name := "ok.json", textContent := .ok "null", bytes := .ok [] }

/-- A JSON file whose content does not parse in `unitEnv`. -/
def fileJsonBad : File :=
  { type := "application/json", name := "bad.json", textContent := .ok "not json", bytes := .ok [] }

/-- A PNG file with different content from `filePng` but the same type. -/
def filePng2 : File :=
  { type := "image/png", name := "q.png", textContent := .ok "yy", bytes := .ok [7, 8] }

/-! Helper lemmas shared by the claim theorems. -/

/-- A try/catch whose handler returns normally never throws. -/
theorem jsTry_caught {α : Type} (x : Except JsThrown α) (f : JsThrown → α) :
    ∃ r, jsTry x (fun e => .ok (f e)) = Except.ok r := by
  cases x with
  | ok a => exact ⟨a, rfl⟩
  | error e => exact ⟨f e, rfl⟩

/-- extractPlainText never throws. -/
theorem extractPlainText_total {J : Type} (env : JsEnv J) (file : File) :
    ∃ r, TextExtractor.extractPlainText env file = Except.ok r := by
  unfold TextExtractor.extractPlainText
  exact jsTry_caught _ _

/-- extractOfficeDocument never throws. -/
theorem extractOfficeDocument_total {J : Type} (env : JsEnv J) (file : File) :
    ∃ r, TextExtractor.extractOfficeDocument env file = Except.ok r := by
  unfold TextExtractor.extractOfficeDocument
  exact jsTry_caught _ _

/-- extractText never throws. -/
theorem extractText_total {J : Type} (env : JsEnv J) (file : File) :
    ∃ r, TextExtractor.extractText env file = Except.ok r := by
  unfold TextExtractor.extractText
  exact jsTry_caught _ _

/-- A try/catch that returns `.ok r` either ran its body to `.ok r`, or its
body threw and the handler returned `.ok r`. -/
theorem jsTry_ok_elim {α : Type} {x : Except JsThrown α} {handler : JsThrown → Except JsThrown α}
    {r : α} (h : jsTry x handler = Except.ok r) :
    x = Except.ok r ∨ ∃ e, x = Except.error e ∧ handler e = Except.ok r := by
  cases x with
  | ok a => exact Or.inl h
  | error e => exact Or.inr ⟨e, rfl, h⟩

/-- Every result of extractPlainText has no error or an empty text. -/
theorem extractPlainText_error_none_or_empty {J : Type} (env : JsEnv J) (file : File)
    (r : TextExtractionResult)
    (h : TextExtractor.extractPlainText env file = Except.ok r) :
    r.error = none ∨ r.text = "" := by
  unfold TextExtractor.extractPlainText at h
  rcases jsTry_ok_elim h with hb | ⟨e, hx, hh⟩
  · cases htc : file.textContent with
    | error e2 => rw [htc] at hb; exact absurd hb (by simp)
    | ok t =>
      rw [htc] at hb
      dsimp only at hb
      split at hb
      · split at hb
        · injection hb with hb; subst hb; exact Or.inl rfl
        · injection hb with hb; subst hb; exact Or.inl rfl
      · injection hb with hb; subst hb; exact Or.inl rfl
  · injection hh with hh; subst hh; exact Or.inr rfl

/-- Every result of extractOfficeDocument has no error or an empty text. -/
theorem extractOfficeDocument_error_none_or_empty {J : Type} (env : JsEnv J) (file : File)
    (r : TextExtractionResult)
    (h : TextExtractor.extractOfficeDocument env file = Except.ok r) :
    r.error = none ∨ r.text = "" := by
  unfold TextExtractor.extractOfficeDocument at h
  rcases jsTry_ok_elim h with hb | ⟨e, hx, hh⟩
  · cases htc : file.bytes with
    | error e2 => rw [htc] at hb; exact absurd hb (by simp)
    | ok buf =>
      rw [htc] at hb
      dsimp only at hb
      cases hoe : env.officeExtract buf with
      | error e3 => rw [hoe] at hb; exact absurd hb (by simp)
      | ok t =>
        rw [hoe] at hb
        dsimp only at hb
        injection hb with hb; subst hb; exact Or.inl rfl
  · injection hh with hh; subst hh; exact Or.inr rfl

/-- C1: extractText never propagates an exception to its caller — for every
environment and input file, it terminates in a well-formed TextExtractionResult
rather than a thrown value. -/
theorem extractText_never_throws {J : Type} (env : JsEnv J) (file : File) :
    ∃ r, TextExtractor.extractText env file = Except.ok r :=
  extractText_total env file

/-- C2: every result returned by extractText satisfies the invariant that a
present `error` field forces an empty `text` field. -/
theorem extractText_error_implies_empty_text {J : Type} (env : JsEnv J) (file : File)
    (r : TextExtractionResult) (s : String)
    (h : TextExtractor.extractText env file = Except.ok r)
    (he : r.error = some s) : r.text = "" := by
  unfold TextExtractor.extractText at h
  rcases jsTry_ok_elim h with hb | ⟨e, hx, hh⟩
  · split at hb
    · rcases extractPlainText_error_none_or_empty env file r hb with h0 | h0
      · rw [h0] at he; simp at he
      · exact h0
    · split at hb
      · rcases extractOfficeDocument_error_none_or_empty env file r hb with h0 | h0
        · rw [h0] at he; simp at he
        · exact h0
      · injection hb with hb; subst hb; rfl
  · injection hh with hh; subst hh; rfl

/-- C2 witness: an unsupported file yields a result with a present error and an
empty text. -/
theorem extractText_error_implies_empty_text_witness :
    TextExtractor.extractText unitEnv filePng =
      Except.ok { text := "", error := some "Unsupported file type: image/png" } ∧
    ({ text := "", error := some "Unsupported file type: image/png" } :
      TextExtractionResult).text = "" :=
  ⟨rfl, extractText_error_implies_empty_text unitEnv filePng
    { text := "", error := some "Unsupported file type: image/png" }
    "Unsupported file type: image/png" rfl rfl⟩

/-- C8: a file whose declared type is neither text/plain, application/json nor
in the office allow-list yields `{text: "", error: "Unsupported file type:
<type>"}`, whatever its content reads would have produced. -/
theorem extractText_unsupported {J : Type} (env : JsEnv J) (mt nm : String)
    (tc : Except JsThrown String) (bc : Except JsThrown (List Nat))
    (h1 : mt ≠ "text/plain") (h2 : mt ≠ "application/json")
    (h3 : TextExtractor.isOfficeDocument mt = false) :
    TextExtractor.extractText env { type := mt, name := nm, textContent := tc, bytes := bc } =
      Except.ok { text := "", error := some ("Unsupported file type: " ++ mt) } := by
  unfold TextExtractor.extractText jsTry
  rw [if_neg (fun hc => hc.elim h1 h2), if_neg (by rw [h3]; exact Bool.false_ne_true)]

/-- C8 witness: a PNG file is rejected without its content being consulted. -/
theorem extractText_unsupported_witness :
    TextExtractor.extractText unitEnv
        { type := "image/png", name := "p.png", textContent := .ok "x", bytes := .ok [0] } =
      Except.ok { text := "", error := some ("Unsupported file type: " ++ "image/png") } :=
  extractText_unsupported unitEnv "image/png" "p.png" (.ok "x") (.ok [0])
    (by decide) (by decide) (by decide)

/-- C10: processFiles on the empty list of files succeeds with the empty
list. -/
theorem processFiles_nil {J : Type} (env : JsEnv J) :
    FileHandler.processFiles env [] = Except.ok [] := rfl

/-- C3: processFile throws exactly when the extractor's result carries a
non-empty error, with the thrown Error's message equal to that error string;
otherwise it returns the result's text. -/
theorem processFile_raises_iff {J : Type} (env : JsEnv J) (file : File)
    (r : TextExtractionResult)
    (h : TextExtractor.extractText env file = Except.ok r) :
    (∀ s, r.error = some s → s ≠ "" →
      FileHandler.processFile env file = Except.error (JsThrown.error s)) ∧
    ((r.error = none ∨ r.error = some "") →
      FileHandler.processFile env file = Except.ok r.text) := by
  constructor
  · intro s hs hne
    unfold FileHandler.processFile
    rw [h]
    dsimp only
    rw [hs]
    have hne2 : s.isEmpty = false := by
      cases hb : s.isEmpty with
      | false => rfl
      | true => exact absurd ((String.isEmpty_iff s).mp hb) hne
    have ht : errTruthy (some s) = true := by
      simp [errTruthy, hne2]
    rw [if_pos ht]
    rfl
  · intro hcase
    unfold FileHandler.processFile
    rw [h]
    dsimp only
    rcases hcase with h0 | h0 <;> rw [h0]
    · rfl
    · have hf : errTruthy (some "") = false := by decide
      rw [hf]
      rfl

/-- C3 witness: on an unsupported file the extractor's error string becomes the
thrown Error's message. -/
theorem processFile_raises_iff_witness :
    FileHandler.processFile unitEnv filePng =
      Except.error (JsThrown.error "Unsupported file type: image/png") :=
  (processFile_raises_iff unitEnv filePng
      { text := "", error := some "Unsupported file type: image/png" } rfl).1
    "Unsupported file type: image/png" rfl (by decide)

/-- C6: a JSON-typed file whose content parses is returned pretty-printed with
no error, and (given the JSON capability's round-trip law at that value)
parsing the output agrees with parsing the input. -/
theorem extractText_json_pretty {J : Type} (env : JsEnv J) (file : File)
    (t : String) (j : J)
    (htype : file.type = "application/json")
    (hread : file.textContent = Except.ok t)
    (hparse : env.jsonParse t = Except.ok j)
    (hrt : env.jsonParse (env.jsonStringify2 j) = Except.ok j) :
    TextExtractor.extractText env file =
      Except.ok { text := env.jsonStringify2 j, error := none } ∧
    env.jsonParse (env.jsonStringify2 j) = env.jsonParse t := by
  constructor
  · unfold TextExtractor.extractText jsTry
    rw [if_pos (Or.inr htype)]
    unfold TextExtractor.extractPlainText jsTry
    rw [hread]
    dsimp only
    rw [if_pos htype, hparse]
  · rw [hrt, hparse]

/-- C6 witness: in the toy JSON environment, a well-formed JSON file is
pretty-printed and round-trips. -/
theorem extractText_json_pretty_witness :
    TextExtractor.extractText unitEnv fileJsonOk =
      Except.ok { text := unitEnv.jsonStringify2 (), error := none } ∧
    unitEnv.jsonParse (unitEnv.jsonStringify2 ()) = unitEnv.jsonParse "null" :=
  extractText_json_pretty unitEnv fileJsonOk "null" () rfl rfl rfl rfl

/-- C7: a JSON-typed file whose content fails to parse is returned as the raw
text with no error set. -/
theorem extractText_json_malformed {J : Type} (env : JsEnv J) (file : File)
    (t : String) (e : JsThrown)
    (htype : file.type = "application/json")
    (hread : file.textContent = Except.ok t)
    (hparse : env.jsonParse t = Except.error e) :
    TextExtractor.extractText env file = Except.ok { text := t, error := none } := by
  unfold TextExtractor.extractText jsTry
  rw [if_pos (Or.inr htype)]
  unfold TextExtractor.extractPlainText jsTry
  rw [hread]
  dsimp only
  rw [if_pos htype, hparse]

/-- C7 witness: malformed JSON degrades to raw-text passthrough. -/
theorem extractText_json_malformed_witness :
    TextExtractor.extractText unitEnv fileJsonBad =
      Except.ok { text := "not json", error := none } :=
  extractText_json_malformed unitEnv fileJsonBad "not json"
    (JsThrown.error "Unexpected token") rfl rfl rfl

/-- C4: when every file in the batch extracts successfully, processFiles
returns a list of the same length whose i-th entry is the i-th file's
extracted text, in input order. -/
theorem processFiles_all_ok {J : Type} (env : JsEnv J) (files : List File)
    (h : ∀ f ∈ files, ∃ t, FileHandler.processFile env f = Except.ok t) :
    ∃ ts, FileHandler.processFiles env files = Except.ok ts ∧
      ts.length = files.length ∧
      ∀ (i : Nat) (hf : i < files.length) (ht : i < ts.length),
        FileHandler.processFile env (files.get ⟨i, hf⟩) = Except.ok (ts.get ⟨i, ht⟩) := by
  induction files with
  | nil =>
    exact ⟨[], rfl, rfl, fun i hf ht => absurd hf (by simp)⟩
  | cons f rest ih =>
    obtain ⟨t, ht⟩ := h f (List.mem_cons_self f rest)
    obtain ⟨ts, hts, hlen, hidx⟩ := ih (fun g hg => h g (List.mem_cons_of_mem f hg))
    refine ⟨t :: ts, ?_, by simp [hlen], ?_⟩
    · unfold FileHandler.processFiles
      rw [ht, hts]
    · intro i hf0 ht0
      cases i with
      | zero => simpa using ht
      | succ n =>
        simpa using hidx n (by simpa using hf0) (by simpa using ht0)

/-- C4 witness: a two-file all-success batch yields both texts in input
order. -/
theorem processFiles_all_ok_witness :
    ∃ ts, FileHandler.processFiles unitEnv [fileA, fileB] = Except.ok ts ∧
      ts.length = ([fileA, fileB] : List File).length ∧
      ∀ (i : Nat) (hf : i < ([fileA, fileB] : List File).length) (ht : i < ts.length),
        FileHandler.processFile unitEnv (([fileA, fileB] : List File).get ⟨i, hf⟩) =
          Except.ok (ts.get ⟨i, ht⟩) :=
  processFiles_all_ok unitEnv [fileA, fileB] (by
    intro f hf
    simp only [List.mem_cons, List.mem_singleton] at hf
    rcases hf with h | h | h
    · exact ⟨"hello", by rw [h]; rfl⟩
    · exact ⟨"world", by rw [h]; rfl⟩
    · exact absurd h (by simp))

/-- C5: if every file before some failing file succeeds and that file's
extraction fails, the whole batch fails with that first failure, and no list of
partial results is returned. -/
theorem processFiles_fail_fast {J : Type} (env : JsEnv J) (pre post : List File)
    (f : File) (e : JsThrown)
    (hpre : ∀ g ∈ pre, ∃ t, FileHandler.processFile env g = Except.ok t)
    (hf : FileHandler.processFile env f = Except.error e) :
    FileHandler.processFiles env (pre ++ f :: post) = Except.error e := by
  induction pre with
  | nil =>
    rw [List.nil_append]
    unfold FileHandler.processFiles
    rw [hf]
  | cons g rest ih =>
    obtain ⟨t, ht⟩ := hpre g (List.mem_cons_self g rest)
    have hrest := ih (fun x hx => hpre x (List.mem_cons_of_mem g hx))
    rw [List.cons_append]
    unfold FileHandler.processFiles
    rw [ht, hrest]

/-- C5 witness: a batch whose middle file is unsupported fails with that
file's error and returns no partial list. -/
theorem processFiles_fail_fast_witness :
    FileHandler.processFiles unitEnv ([fileA] ++ filePng :: [fileB]) =
      Except.error (JsThrown.error "Unsupported file type: image/png") :=
  processFiles_fail_fast unitEnv [fileA] [fileB] filePng
    (JsThrown.error "Unsupported file type: image/png")
    (by
      intro g hg
      rw [List.mem_singleton] at hg
      exact ⟨"hello", by rw [hg]; rfl⟩)
    rfl

/-- Category is the spec's derived classification of a file: exactly one of
PlainText, JsonText, OfficeDocument, Unsupported. -/
inductive Category where
  | plainText
  | jsonText
  | officeDocument
  | unsupported
deriving DecidableEq, Repr

/-- The classification induced by extractText's dispatch, as a function of the
declared media-type string alone. -/
def classify (mimeType : String) : Category :=
  if mimeType = "text/plain" then .plainText
  else if mimeType = "application/json" then .jsonText
  else if TextExtractor.isOfficeDocument mimeType then .officeDocument
  else .unsupported

/-- The per-category extraction strategy extractText applies once a file has
been classified. -/
def dispatchByCategory {J : Type} (env : JsEnv J) (file : File) :
    Except JsThrown TextExtractionResult :=
  match classify file.type with
  | .plainText => TextExtractor.extractPlainText env file
  | .jsonText => TextExtractor.extractPlainText env file
  | .officeDocument => TextExtractor.extractOfficeDocument env file
  | .unsupported => .ok { text := "", error := some ("Unsupported file type: " ++ file.type) }

/-- A try/catch around a computation that cannot throw is that computation. -/
theorem jsTry_eq_self_of_total {α : Type} (x : Except JsThrown α)
    (handler : JsThrown → Except JsThrown α) (h : ∃ r, x = Except.ok r) :
    jsTry x handler = x := by
  obtain ⟨r, hr⟩ := h
  rw [hr]
  rfl

/-- extractText takes exactly the branch selected by classifying the declared
media type. -/
theorem extractText_eq_dispatch {J : Type} (env : JsEnv J) (file : File) :
    TextExtractor.extractText env file = dispatchByCategory env file := by
  unfold TextExtractor.extractText dispatchByCategory classify
  by_cases h1 : file.type = "text/plain"
  · rw [if_pos (Or.inl h1), if_pos h1]
    exact jsTry_eq_self_of_total _ _ (extractPlainText_total env file)
  · by_cases h2 : file.type = "application/json"
    · rw [if_pos (Or.inr h2), if_neg h1, if_pos h2]
      exact jsTry_eq_self_of_total _ _ (extractPlainText_total env file)
    · rw [if_neg (fun hc => hc.elim h1 h2), if_neg h1, if_neg h2]
      by_cases h3 : TextExtractor.isOfficeDocument file.type = true
      · rw [if_pos h3, if_pos h3]
        exact jsTry_eq_self_of_total _ _ (extractOfficeDocument_total env file)
      · rw [if_neg h3, if_neg h3]
        rfl

/-- C9: the branch extractText takes is a pure function of the declared
media-type string — two files with the same declared type are classified
identically, and on each of them extractText runs exactly the strategy that
classification selects, independently of the files' contents. -/
theorem extractText_classification_pure {J : Type} (env : JsEnv J) (f g : File)
    (h : f.type = g.type) :
    classify f.type = classify g.type ∧
    TextExtractor.extractText env f = dispatchByCategory env f ∧
    TextExtractor.extractText env g = dispatchByCategory env g :=
  ⟨by rw [h], extractText_eq_dispatch env f, extractText_eq_dispatch env g⟩

/-- C9 witness: two PNG files with different contents share their
classification and both follow the dispatch. -/
theorem extractText_classification_pure_witness :
    classify filePng.type = classify filePng2.type ∧
    TextExtractor.extractText unitEnv filePng = dispatchByCategory unitEnv filePng ∧
    TextExtractor.extractText unitEnv filePng2 = dispatchByCategory unitEnv filePng2 :=
  extractText_classification_pure unitEnv filePng filePng2 rfl
